import Mathlib

/-!
Shallow embedding of the reconciliation / delivery engine of the
NextivaMissedCallsCollector userscript (the `NextivaCollector` class of the
real-time version, together with its `CallRecord` data class).

Conventions of the embedding:
* JS `Date` values are modelled at minute granularity by `JSDate`
  (an absolute day number plus minutes within the day); epoch milliseconds
  (`Date.prototype.getTime`) are recovered by `JSDate.getTime`.  All the
  timestamps the engine manipulates come out of `parseDateTime` /
  `parseAnyDateTime`, which zero the seconds, so minute granularity is exact.
* JS `Set` and `Map` are modelled by insertion-ordered lists (`List String`,
  association lists) with the add / set / delete operations below.
* The external pieces (DOM rows, `Date.parse`, request identifiers produced
  from `Date.now()` and `Math.random()`) are parameters of the functions that
  use them.
* Network deliveries (`GM_xmlhttpRequest` POST bodies) are returned as
  `Delivery` values; the `dateTime` field keeps the raw record timestamp that
  the source formats with `formatDateTimeForSheet`.
-/

/-! ## JS primitives: characters, whitespace, sets and maps -/

/-- `\s` of the source's regexes (the whitespace characters that occur in
practice in the observed rows). -/
def isSpaceChar (c : Char) : Bool :=
  c == ' ' || c == '\t' || c == '\n' || c == '\r'

/-- Numeric value of a decimal digit character. -/
def digitVal (c : Char) : Nat := c.toNat - 48

/-- Drop a maximal run of whitespace (`\s*`; greedy, and safe to commit to
because no following token of the source's patterns can match whitespace
except the separator class, which is handled with backtracking). -/
def dropSpaces (cs : List Char) : List Char := cs.dropWhile isSpaceChar

/-- `String.prototype.trim`. -/
def trimChars (cs : List Char) : List Char :=
  ((cs.dropWhile isSpaceChar).reverse.dropWhile isSpaceChar).reverse

/-- `String.prototype.trim`, on strings. -/
def jsTrim (s : String) : String := String.mk (trimChars s.toList)

/-- Is `p` a prefix of `cs`? -/
def isPrefixList : List Char → List Char → Bool
  | [], _ => true
  | _ :: _, [] => false
  | p :: ps, c :: cs => p == c && isPrefixList ps cs

/-- `String.prototype.includes` (used for the "Missed call" /
"Incoming call" row-kind tests). -/
def containsList (sub : List Char) : List Char → Bool
  | [] => isPrefixList sub []
  | c :: cs => isPrefixList sub (c :: cs) || containsList sub cs

/-- `hay.includes(sub)`. -/
def jsIncludes (hay sub : String) : Bool := containsList sub.toList hay.toList

/-- `Set.prototype.add` (insertion order preserved, no duplicates). -/
def setAdd (s : List String) (x : String) : List String :=
  if s.contains x then s else s ++ [x]

/-- `Set.prototype.delete`. -/
def setDelete (s : List String) (x : String) : List String :=
  s.filter (fun y => y ≠ x)

/-- `Map.prototype.get` on an insertion-ordered association list. -/
def mapLookup {α : Type} (m : List (String × α)) (k : String) : Option α :=
  (m.find? (fun e => e.1 == k)).map (fun e => e.2)

/-- `Map.prototype.set`: overwrite the entry in place when the key exists
(keeping insertion order), append a fresh entry otherwise. -/
def mapSet {α : Type} : List (String × α) → String → α → List (String × α)
  | [], k, v => [(k, v)]
  | e :: tl, k, v => if e.1 == k then (k, v) :: tl else e :: mapSet tl k v

/-- `Array.prototype.slice(-n)` — the last `n` elements. -/
def jsSliceLast {α : Type} (n : Nat) (l : List α) : List α :=
  l.drop (l.length - n)

/-! ## JS dates at minute granularity -/

/-- A JS `Date` at minute granularity: an absolute (epoch-based) calendar day
number and the minutes elapsed within that day. -/
structure JSDate where
  day : Int
  minuteOfDay : Nat
deriving DecidableEq, Repr

/-- `Date.prototype.getTime`, in milliseconds. -/
def JSDate.getTime (d : JSDate) : Int :=
  (d.day * 1440 + (d.minuteOfDay : Int)) * 60000

/-- `d.setHours(h, m, 0, 0)`: JS normalizes an out-of-range hour count into
the following days. -/
def JSDate.setClock (d : JSDate) (h m : Nat) : JSDate :=
  { day := d.day + ((h * 60 + m) / 1440 : Nat), minuteOfDay := (h * 60 + m) % 1440 }

/-- `Date.prototype.getDay` (0 = Sunday; epoch day 0 was a Thursday). -/
def JSDate.getDay (d : JSDate) : Nat := ((d.day + 4).emod 7).toNat

/-- Day number of a proleptic-Gregorian civil date (the value JS computes for
`new Date(year, month-1, dayOfMonth)`), with JS's month normalization. -/
def civilToDay (y m d : Int) : Int :=
  let ym := y * 12 + (m - 1)
  let yn := Int.fdiv ym 12
  let mn := Int.emod ym 12 + 1
  let ys := if mn ≤ 2 then yn - 1 else yn
  let era := Int.fdiv ys 400
  let yoe := ys - era * 400
  let mp := Int.emod (mn + 9) 12
  let doy := Int.fdiv (153 * mp + 2) 5 + d - 1
  let doe := yoe * 365 + Int.fdiv yoe 4 - Int.fdiv yoe 100 + doy
  era * 146097 + doe - 719468

/-! ## Timestamp text matching (`parseDateTime` and its regexes) -/

/-- AM / PM marker of a 12-hour clock reading. -/
inductive Period where
  | AM : Period
  | PM : Period
deriving DecidableEq, Repr

/-- The optional trailing `([AP]M)?` group (case-insensitive). -/
def readPeriod : List Char → Option Period
  | c :: d :: _ =>
    if d.toLower == 'm' then
      if c.toLower == 'a' then some Period.AM
      else if c.toLower == 'p' then some Period.PM
      else none
    else none
  | _ => none

/-- The `:(\d{2})\s*([AP]M)?` tail of the clock patterns, given an already
matched hour value. -/
def afterColon (h : Nat) : List Char → Option (Nat × Nat × Option Period)
  | ':' :: m1 :: m2 :: rest =>
    if m1.isDigit && m2.isDigit then
      some (h, 10 * digitVal m1 + digitVal m2, readPeriod (dropSpaces rest))
    else none
  | _ => none

/-- `(\d{1,2}):(\d{2})\s*([AP]M)?` with the regex's greedy-then-backtrack
choice on the one-or-two-digit hour. -/
def matchClock : List Char → Option (Nat × Nat × Option Period)
  | a :: b :: rest =>
    if a.isDigit then
      if b.isDigit then
        (afterColon (10 * digitVal a + digitVal b) rest) <|>
          (afterColon (digitVal a) (b :: rest))
      else afterColon (digitVal a) (b :: rest)
    else none
  | _ => none

/-- `/^(\d{1,2}):(\d{2})\s*([AP]M)?/i` — the time-only pattern, anchored. -/
def matchTimeOnly (cs : List Char) : Option (Nat × Nat × Option Period) :=
  matchClock cs

/-- Case-insensitively strip the literal pattern `p` from the front of `cs`. -/
def stripLitCI : List Char → List Char → Option (List Char)
  | [], cs => some cs
  | _ :: _, [] => none
  | p :: ps, c :: cs => if c.toLower == p.toLower then stripLitCI ps cs else none

/-- `Yesterday\s*(\d{1,2}):(\d{2})(?:\s*([AP]M))?` matched at the head of
`cs` (case-insensitive). -/
def matchYesterdayAt (cs : List Char) : Option (Nat × Nat × Option Period) :=
  match stripLitCI "yesterday".toList cs with
  | some rest => matchClock (dropSpaces rest)
  | none => none

/-- Unanchored (leftmost) search for the `Yesterday …` pattern, as
`String.prototype.match` performs for a regex without `^`. -/
def yesterdaySearch : List Char → Option (Nat × Nat × Option Period)
  | [] => none
  | c :: cs => matchYesterdayAt (c :: cs) <|> yesterdaySearch cs

/-- Conversion of a 12-hour reading to 24-hour form, exactly as the source
adjusts `hours` after each regex match. -/
def to24Hour (h : Nat) (p : Option Period) : Nat :=
  match p with
  | some Period.PM => if h != 12 then h + 12 else h
  | some Period.AM => if h == 12 then 0 else h
  | none => h

/-- `parseDateTime(text, lowerRowDates)`.  `now` is the `new Date()` the
source takes at entry; `jsDateParse` models the engine-provided `Date.parse`
fallback.  The three strategies are tried in the source's order:
time-only (today), "Yesterday …" (previous day, overridden to today when some
sibling date of `lowerRowDates` falls on today), then `Date.parse`. -/
def parseDateTime (text : String) (lowerRowDates : List JSDate) (now : JSDate)
    (jsDateParse : String → Option JSDate) : Option JSDate :=
  match matchTimeOnly text.toList with
  | some (h, m, p) => some (now.setClock (to24Hour h p) m)
  | none =>
    match yesterdaySearch text.toList with
    | some (h, m, p) =>
      let hh := to24Hour h p
      if lowerRowDates.any (fun d => d.day == now.day) then
        some (now.setClock hh m)
      else
        some ((JSDate.mk (now.day - 1) now.minuteOfDay).setClock hh m)
    | none => jsDateParse text

/-! ## Phone-number extraction (`extractPhoneNumber`, `separateContactInfo`) -/

/-- The separator class `[-.\s]` of the phone pattern. -/
def isSepChar (c : Char) : Bool := c == '-' || c == '.' || isSpaceChar c

/-- Optional single character (`c?` in a regex): try consuming it first, then
backtrack to not consuming it, as the regex engine does. -/
def optTry {α : Type} (c : Char) (k : List Char → Option α) :
    List Char → Option α
  | [] => k []
  | x :: rest => if x == c then (k rest <|> k (x :: rest)) else k (x :: rest)

/-- Optional single character from a class (`[-.\s]?`), with backtracking. -/
def optTryPred {α : Type} (p : Char → Bool) (k : List Char → Option α) :
    List Char → Option α
  | [] => k []
  | x :: rest => if p x then (k rest <|> k (x :: rest)) else k (x :: rest)

/-- `\d{n}`: exactly `n` digits. -/
def readDigits : Nat → List Char → Option (List Char × List Char)
  | 0, cs => some ([], cs)
  | _ + 1, [] => none
  | n + 1, c :: cs =>
    if c.isDigit then (readDigits n cs).map (fun r => (c :: r.1, r.2)) else none

/-- The phone pattern `\+?1?\s*\(?(\d{3})\)?[-.\s]?(\d{3})[-.\s]?(\d{4})`
matched at the head of the input; returns the three digit groups and the
remaining input after the match. -/
def matchPhoneAt (cs : List Char) :
    Option ((List Char × List Char × List Char) × List Char) :=
  optTry '+' (fun cs1 =>
    optTry '1' (fun cs2 =>
      let cs3 := dropSpaces cs2
      optTry '(' (fun cs4 =>
        match readDigits 3 cs4 with
        | none => none
        | some (g1, cs5) =>
          optTry ')' (fun cs6 =>
            optTryPred isSepChar (fun cs7 =>
              match readDigits 3 cs7 with
              | none => none
              | some (g2, cs8) =>
                optTryPred isSepChar (fun cs9 =>
                  match readDigits 4 cs9 with
                  | none => none
                  | some (g3, cs10) => some ((g1, g2, g3), cs10)) cs8) cs6) cs5)
        cs3) cs1) cs

/-- Leftmost search for the phone pattern (as an unanchored
`String.prototype.match`); returns the text before the match, the digit
groups, and the text after the match. -/
def searchPhone :
    List Char → Option (List Char × (List Char × List Char × List Char) × List Char)
  | [] => none
  | c :: cs =>
    match matchPhoneAt (c :: cs) with
    | some (g, rest) => some ([], g, rest)
    | none => (searchPhone cs).map (fun r => (c :: r.1, r.2.1, r.2.2))

/-- `extractPhoneNumber(contact)`: the ten digits of the first phone match,
or the contact string itself when no phone pattern occurs. -/
def extractPhoneNumber (contact : String) : String :=
  match searchPhone contact.toList with
  | some (_, (g1, g2, g3), _) => String.mk (g1 ++ g2 ++ g3)
  | none => contact

/-- The `(ddd)ddd-dddd` display form the source rebuilds from the groups. -/
def formatPhone (g1 g2 g3 : List Char) : String :=
  "(" ++ String.mk g1 ++ ")" ++ String.mk g2 ++ "-" ++ String.mk g3

/-- An observed DOM row, as the engine reads it: the stable `data-index`
attribute, the full `textContent`, and the timestamp / sender / caller-info
child texts (absent when the corresponding element is missing). -/
structure ObservedRow where
  dataIndex : Option String
  text : String
  timestampText : Option String
  contactText : Option String
  callerInfoText : Option String
deriving DecidableEq, Repr

/-- `extractPhoneFromRow(row)`: the caller-info element's text first, the
whole row text as a fallback, formatted as `(ddd)ddd-dddd`; `none` when no
phone pattern occurs anywhere in the row. -/
def extractPhoneFromRow (row : ObservedRow) : Option String :=
  let fromAllText : Option String :=
    match searchPhone row.text.toList with
    | some (_, (g1, g2, g3), _) => some (formatPhone g1 g2 g3)
    | none => none
  match row.callerInfoText with
  | some t =>
    match searchPhone (jsTrim t).toList with
    | some (_, (g1, g2, g3), _) => some (formatPhone g1 g2 g3)
    | none => fromAllText
  | none => fromAllText

/-- The source's test for "the contact is just a phone number": strip
whitespace and `- ( ) + .` characters from the trimmed contact and check the
result against `^1?\d{10}$`. -/
def isBarePhone (contact : String) : Bool :=
  let cleaned := (jsTrim contact).toList.filter
    (fun c => !(isSpaceChar c || c == '-' || c == '(' || c == ')' ||
                c == '+' || c == '.'))
  (cleaned.length == 10 && cleaned.all Char.isDigit) ||
    (match cleaned with
     | '1' :: rest => rest.length == 10 && rest.all Char.isDigit
     | _ => false)

/-- Result of `separateContactInfo`. -/
structure ContactInfo where
  displayNumber : String
  contactName : Option String
deriving DecidableEq, Repr

/-- `separateContactInfo(contact, row)`: split a display name from the phone
number.  When the contact text has no phone pattern, fall back to the row
(when given), and finally to the raw contact string. -/
def separateContactInfo (contact : String) (row : Option ObservedRow) :
    ContactInfo :=
  match searchPhone contact.toList with
  | some (pre, (g1, g2, g3), post) =>
    let formatted := formatPhone g1 g2 g3
    if isBarePhone contact then
      { displayNumber := formatted, contactName := none }
    else
      -- `contact.replace(pattern, '').trim()`: the match removed in place.
      let nameWithoutPhone := jsTrim (String.mk (pre ++ post))
      { displayNumber := formatted
        contactName := if nameWithoutPhone == "" then none else some nameWithoutPhone }
  | none =>
    match row with
    | some r =>
      match extractPhoneFromRow r with
      | some fp => { displayNumber := fp, contactName := some contact }
      | none => { displayNumber := contact, contactName := some contact }
    | none => { displayNumber := contact, contactName := some contact }

/-! ## `parseAnyDateTime` (bulk-collection fallback formats) -/

/-- `\d{1,2}` with the regex's greedy-then-backtrack choice, in continuation
style. -/
def read12 {α : Type} (k : Nat → List Char → Option α) :
    List Char → Option α
  | [] => none
  | [a] => if a.isDigit then k (digitVal a) [] else none
  | a :: b :: rest =>
    if a.isDigit then
      if b.isDigit then
        k (10 * digitVal a + digitVal b) rest <|> k (digitVal a) (b :: rest)
      else k (digitVal a) (b :: rest)
    else none

/-- The weekday-name alternation, with the source's `dayNames` indexing
(0 = sunday). -/
def weekdayNames : List (String × Nat) :=
  [("monday", 1), ("tuesday", 2), ("wednesday", 3), ("thursday", 4),
   ("friday", 5), ("saturday", 6), ("sunday", 0)]

/-- Strip one of the weekday names (case-insensitive) from the head of the
input. -/
def matchNamedDay : List (String × Nat) → List Char → Option (Nat × List Char)
  | [], _ => none
  | (nm, idx) :: rest, cs =>
    match stripLitCI nm.toList cs with
    | some r => some (idx, r)
    | none => matchNamedDay rest cs

/-- `^(Monday|…|Sunday)\s+(\d{1,2}):(\d{2})\s*([AP]M)?` (case-insensitive). -/
def matchDayOfWeek (cs : List Char) : Option (Nat × Nat × Nat × Option Period) :=
  match matchNamedDay weekdayNames cs with
  | some (idx, r) =>
    match r with
    | c :: r2 =>
      if isSpaceChar c then
        match matchClock (dropSpaces r2) with
        | some (h, m, p) => some (idx, h, m, p)
        | none => none
      else none
    | [] => none
  | none => none

/-- `^(\d{1,2})\/(\d{1,2})\/(\d{4})\s*(\d{1,2}):(\d{2})\s*([AP]M)?`. -/
def matchUSDate (cs : List Char) :
    Option (Nat × Nat × Nat × Nat × Nat × Option Period) :=
  read12 (fun mo cs1 =>
    match cs1 with
    | '/' :: cs2 =>
      read12 (fun d cs3 =>
        match cs3 with
        | '/' :: y1 :: y2 :: y3 :: y4 :: cs4 =>
          if y1.isDigit && y2.isDigit && y3.isDigit && y4.isDigit then
            let y := 1000 * digitVal y1 + 100 * digitVal y2 +
              10 * digitVal y3 + digitVal y4
            match matchClock (dropSpaces cs4) with
            | some (h, mi, p) => some (mo, d, y, h, mi, p)
            | none => none
          else none
        | _ => none) cs2
    | _ => none) cs

/-- `parseAnyDateTime(text)`: weekday-name format ("Monday 3:45 PM" — the
most recent such weekday strictly before today), then `MM/DD/YYYY h:mm`,
then the engine's `Date.parse` fallback; `null` for a falsy text. -/
def parseAnyDateTime (text : String) (now : JSDate)
    (jsDateParse : String → Option JSDate) : Option JSDate :=
  if text == "" then none
  else
    match matchDayOfWeek text.toList with
    | some (idx, h, m, p) =>
      let daysAgo0 : Int := (now.getDay : Int) - (idx : Int)
      let daysAgo := if daysAgo0 ≤ 0 then daysAgo0 + 7 else daysAgo0
      some ((JSDate.mk (now.day - daysAgo) now.minuteOfDay).setClock (to24Hour h p) m)
    | none =>
      match matchUSDate text.toList with
      | some (mo, d, y, h, mi, p) =>
        some ((JSDate.mk (civilToDay (y : Int) (mo : Int) (d : Int)) 0).setClock
          (to24Hour h p) mi)
      | none => jsDateParse text

/-! ## Engine data model -/

/-- The `CallRecord` data class of the real-time version (`isAnswered` is
never set by any engine path; reclassification is delivered to the sink as an
update rather than recorded in memory). -/
structure CallRecord where
  timestamp : Int
  contact : String
  dataIndex : String
  calledBack : Bool
  isAnswered : Bool
deriving DecidableEq, Repr

/-- `new CallRecord(timestamp, contact, dataIndex)` with the constructor's
defaults. -/
def CallRecord.make (timestamp : Int) (contact dataIndex : String) : CallRecord :=
  { timestamp := timestamp, contact := contact, dataIndex := dataIndex,
    calledBack := false, isAnswered := false }

/-- One entry of the per-number recent-call window (`this.recentCalls`). -/
structure RecentCall where
  time : Int
  isMissed : Bool
  isAnswered : Bool
deriving DecidableEq, Repr

/-- The value stored in `this.sentRecords` for a delivered record; the source
stores the formatted `dateTime` string — the raw timestamp is kept here. -/
structure SentInfo where
  dateTime : Int
  number : String
  actualMissedCall : String
deriving DecidableEq, Repr

/-- An outbound POST body (`GM_xmlhttpRequest` payload).  `dateTime` keeps
the raw record timestamp the source formats with `formatDateTimeForSheet`
(the sink's lookup key); `frequency` is present only on create payloads and
`answerTime` only on the update payloads built by
`updateMissedCallsAfterAnswer`. -/
structure Delivery where
  dateTime : Int
  number : String
  phoneNumber : String
  actualMissedCall : String
  isUpdate : Bool
  notes : Option String
  frequency : Option Nat
  answerTime : Option Int
deriving DecidableEq, Repr

/-- The mutable fields of `NextivaCollector` that the reconciliation /
delivery engine reads or writes.  `maxProcessedIndex = none` models the `NaN`
that `parseInt` of a malformed index produces. -/
structure CollectorState where
  isRealTimeMode : Bool
  isCollecting : Bool
  allRecords : List CallRecord
  processedIndexes : List String
  maxProcessedIndex : Option Int
  lastKnownRowCount : Nat
  realTimeMissedCount : Nat
  monitorStartTime : Option Int
  recentCalls : List (String × List RecentCall)
  sentRecords : List (String × SentInfo)
  processedAnswers : List String
  pendingRequests : List String
deriving DecidableEq, Repr

/-- `recordKey` / `answerKey` shape: `` `${phone}_${ms}` ``. -/
def recordKey (phoneNumber : String) (ms : Int) : String :=
  phoneNumber ++ "_" ++ toString ms

/-- `answerMinute.setSeconds(0, 0)`: the timestamp floored to its minute. -/
def minuteBucket (ms : Int) : Int := ms - Int.emod ms 60000

/-! ## Engine operations -/

/-- `isActualMissedCall(phoneNumber, timestamp)`: "No" iff the recent-call
window holds an answered entry strictly within one hour either side of the
timestamp. -/
def isActualMissedCall (s : CollectorState) (phoneNumber : String)
    (timestamp : Int) : String :=
  let calls := (mapLookup s.recentCalls phoneNumber).getD []
  if calls.any (fun c =>
      c.time > timestamp - 3600000 && c.time < timestamp + 3600000 &&
        c.isAnswered) then
    "No"
  else "Yes"

/-- `updateRecentCalls(phoneNumber, timestamp, isMissed, isAnswered)`: append
the entry, drop entries older than two hours before `nowMs` (`Date.now()`),
and keep the last ten. -/
def updateRecentCalls (s : CollectorState) (phoneNumber : String)
    (timestamp : Int) (isMissed isAnswered : Bool) (nowMs : Int) :
    CollectorState :=
  let calls := (mapLookup s.recentCalls phoneNumber).getD []
  let calls := calls ++ [⟨timestamp, isMissed, isAnswered⟩]
  let recent := jsSliceLast 10 (calls.filter (fun c => c.time > nowMs - 7200000))
  { s with recentCalls := mapSet s.recentCalls phoneNumber recent }

/-- `sendToGoogleSheets(record, isUpdate)` up to the point the request is
handed to the transport: skipped entirely when monitoring is off; otherwise
the record is entered into `sentRecords` (keyed on phone and timestamp,
before any response arrives), the fresh request id `rid` joins
`pendingRequests`, and the create payload is emitted. -/
def sendToGoogleSheets (s : CollectorState) (record : CallRecord)
    (isUpdate : Bool) (rid : String) : CollectorState × Option Delivery :=
  if !s.isRealTimeMode then (s, none)
  else
    let phoneNumber := extractPhoneNumber record.contact
    let actualMissedCall := isActualMissedCall s phoneNumber record.timestamp
    let cinfo := separateContactInfo record.contact none
    let data : Delivery :=
      { dateTime := record.timestamp, number := cinfo.displayNumber,
        phoneNumber := phoneNumber, actualMissedCall := actualMissedCall,
        isUpdate := isUpdate, notes := cinfo.contactName,
        frequency := some 1, answerTime := none }
    let rkey := recordKey phoneNumber record.timestamp
    let s :=
      { s with
        sentRecords := mapSet s.sentRecords rkey
          ⟨record.timestamp, cinfo.displayNumber, actualMissedCall⟩,
        pendingRequests := setAdd s.pendingRequests rid }
    (s, some data)

/-- The `onload` completion callback of either request site: the request id
is removed from the pending set, then the monitoring flag is checked and the
response is otherwise only logged (including the JSON body inspection) — no
further state is touched in any branch. -/
def requestOnload (s : CollectorState) (rid : String) (_status : Nat) :
    CollectorState :=
  let s1 := { s with pendingRequests := setDelete s.pendingRequests rid }
  if !s1.isRealTimeMode then s1 else s1

/-- The `onerror` completion callback of either request site: remove the
request id and log the error. -/
def requestOnerror (s : CollectorState) (rid : String) : CollectorState :=
  { s with pendingRequests := setDelete s.pendingRequests rid }

/-- The `ontimeout` completion callback of either request site: remove the
request id and log. -/
def requestOntimeout (s : CollectorState) (rid : String) : CollectorState :=
  { s with pendingRequests := setDelete s.pendingRequests rid }

/-- The update payload built inside `updateMissedCallsAfterAnswer` for one
affected record: keyed on the original missed-call timestamp, status "No",
`isUpdate` set, carrying the answer time. -/
def mkUpdateDelivery (phoneNumber : String) (answerTs : Int)
    (record : CallRecord) : Delivery :=
  let cinfo := separateContactInfo record.contact none
  { dateTime := record.timestamp, number := cinfo.displayNumber,
    phoneNumber := phoneNumber, actualMissedCall := "No", isUpdate := true,
    notes := cinfo.contactName, frequency := none, answerTime := some answerTs }

/-- The candidate scan of `updateMissedCallsAfterAnswer`: durable records of
the same phone key, strictly inside the hour before the answer, already
present in the sent-record index. -/
def answerCandidates (s : CollectorState) (phoneNumber : String)
    (answerTs : Int) : List CallRecord :=
  s.allRecords.filter (fun r =>
    extractPhoneNumber r.contact == phoneNumber &&
    r.timestamp > answerTs - 3600000 &&
    r.timestamp < answerTs &&
    (mapLookup s.sentRecords (recordKey phoneNumber r.timestamp)).isSome)

/-- The delivery loop over the (already capped) affected records: each
iteration re-checks the monitoring flag (the source `break`s when it has been
turned off), registers a fresh request id, and emits the update payload. -/
def sendUpdatesLoop (phoneNumber : String) (answerTs : Int)
    (rids : Nat → String) :
    List CallRecord → Nat → CollectorState → CollectorState × List Delivery
  | [], _, s => (s, [])
  | r :: rest, i, s =>
    if !s.isRealTimeMode then (s, [])
    else
      let s1 := { s with pendingRequests := setAdd s.pendingRequests (rids i) }
      let out := sendUpdatesLoop phoneNumber answerTs rids rest (i + 1) s1
      (out.1, mkUpdateDelivery phoneNumber answerTs r :: out.2)

/-- Result of `updateMissedCallsAfterAnswer`: the new engine state, the
update payloads handed to the transport, and the function's return value
(the number of affected records, not capped at three). -/
structure UpdateOutcome where
  state : CollectorState
  deliveries : List Delivery
  updatedCount : Nat
deriving DecidableEq, Repr

/-- `updateMissedCallsAfterAnswer(phoneNumber, answerTimestamp)`: no-op when
monitoring is off or when the `(phone, minute-bucket)` answer key was already
processed; otherwise send updates for at most three affected records and
always mark the answer key processed. -/
def updateMissedCallsAfterAnswer (s : CollectorState) (phoneNumber : String)
    (answerTs : Int) (rids : Nat → String) : UpdateOutcome :=
  if !s.isRealTimeMode then ⟨s, [], 0⟩
  else
    let answerKey := recordKey phoneNumber (minuteBucket answerTs)
    if s.processedAnswers.contains answerKey then ⟨s, [], 0⟩
    else
      let affectedRecords := answerCandidates s phoneNumber answerTs
      let out := sendUpdatesLoop phoneNumber answerTs rids
        (affectedRecords.take 3) 0 s
      let s2 := { out.1 with
        processedAnswers := setAdd out.1.processedAnswers answerKey }
      ⟨s2, out.2, affectedRecords.length⟩

/-! ## Real-time path (`checkForNewCalls`) -/

/-- Result of one `checkForNewCalls` pass: the new state, the payloads handed
to the transport, and the `{ newMissedFound, answeredFound }` counters it
returns. -/
structure CheckOutcome where
  state : CollectorState
  deliveries : List Delivery
  newMissedFound : Nat
  answeredFound : Nat
deriving DecidableEq, Repr

/-- One `checkForNewCalls` pass over the (optional) top row: classify the
row, parse its timestamp (with an empty sibling-date list), ignore rows at or
before the monitor start, track the recent-call window, then either
reconcile an answered call or dedup-and-create a missed-call record. -/
def checkForNewCalls (s : CollectorState) (topRow : Option ObservedRow)
    (now : JSDate) (jsDateParse : String → Option JSDate)
    (rids : Nat → String) : CheckOutcome :=
  match topRow with
  | none => ⟨s, [], 0, 0⟩
  | some row =>
    match row.dataIndex with
    | none => ⟨s, [], 0, 0⟩
    | some dataIndex =>
      let isMissedCall := jsIncludes row.text "Missed call"
      let isAnsweredCall := jsIncludes row.text "Incoming call answered by" ||
        jsIncludes row.text "Incoming call"
      match row.timestampText, row.contactText with
      | some tsText, some contactText =>
        let contact0 := jsTrim contactText
        let cinfo := separateContactInfo contact0 (some row)
        let contact := cinfo.displayNumber
        match parseDateTime tsText [] now jsDateParse with
        | none => ⟨s, [], 0, 0⟩
        | some ts =>
          let tsMs := ts.getTime
          if (match s.monitorStartTime with
              | some m => decide (tsMs ≤ m)
              | none => false) then ⟨s, [], 0, 0⟩
          else
            let phoneNumber := extractPhoneNumber contact
            let s1 := updateRecentCalls s phoneNumber tsMs isMissedCall
              isAnsweredCall now.getTime
            if isAnsweredCall then
              let out := updateMissedCallsAfterAnswer s1 phoneNumber tsMs rids
              ⟨out.state, out.deliveries, 0,
                if out.updatedCount > 0 then 1 else 0⟩
            else if isMissedCall then
              let exists0 := s1.allRecords.any (fun r =>
                r.contact == contact && r.timestamp == tsMs)
              if exists0 then ⟨s1, [], 0, 0⟩
              else
                let record := CallRecord.make tsMs contact dataIndex
                let s2 := { s1 with
                  allRecords := s1.allRecords ++ [record],
                  realTimeMissedCount := s1.realTimeMissedCount + 1 }
                let out := sendToGoogleSheets s2 record false (rids 0)
                ⟨out.1, out.2.toList, 1, 0⟩
            else ⟨s1, [], 0, 0⟩
      | _, _ => ⟨s, [], 0, 0⟩

/-! ## Bulk collection path (`collectRecords`) -/

/-- `parseInt` on a row index string: leading whitespace, an optional sign,
then a maximal digit run; `none` models `NaN`. -/
def parseIntJS (str : String) : Option Int :=
  let readNat : List Char → Option Nat := fun cs =>
    let ds := cs.takeWhile Char.isDigit
    if ds.isEmpty then none
    else some (ds.foldl (fun a c => 10 * a + digitVal c) 0)
  match dropSpaces str.toList with
  | '-' :: rest => (readNat rest).map (fun n => -(n : Int))
  | '+' :: rest => (readNat rest).map (fun n => (n : Int))
  | cs => (readNat cs).map (fun n => (n : Int))

/-- `Math.max` over two values where `none` models `NaN` (which poisons the
maximum). -/
def jsMaxNaN : Option Int → Option Int → Option Int
  | some x, some y => some (max x y)
  | _, _ => none

/-- The missing-index scan of `collectRecords`: indexes from `0` to the
maximum observed one that are neither on screen nor already processed.  A
`NaN` (or an empty index set) makes the loop bound `NaN` / `-Infinity`, so no
iteration runs. -/
def missingIndexScan (currentIndexes : List (Option Int))
    (processedIndexes : List String) : List Int :=
  if currentIndexes.isEmpty || currentIndexes.contains none then []
  else
    let mx := currentIndexes.foldl
      (fun a e => match e with | some v => max a v | none => a) 0
    if mx < 0 then []
    else
      ((List.range (mx.toNat + 1)).map (fun n => (n : Int))).filter (fun i =>
        !currentIndexes.contains (some i) &&
          !processedIndexes.contains (toString i))

/-- One iteration of the main `collectRecords` row loop, threading the state
and the new-record counter. -/
def collectStep (now : JSDate) (jsDateParse : String → Option JSDate)
    (lowerRowDates : List JSDate) (acc : CollectorState × Nat)
    (row : ObservedRow) : CollectorState × Nat :=
  let s := acc.1
  let cnt := acc.2
  match row.dataIndex with
  | none => (s, cnt)
  | some dataIndex =>
    let numericIndex := parseIntJS dataIndex
    let s := { s with
      maxProcessedIndex := jsMaxNaN s.maxProcessedIndex numericIndex }
    if s.processedIndexes.contains dataIndex then (s, cnt)
    else
      let isMissedCall := jsIncludes row.text "Missed call"
      let isAnsweredCall := jsIncludes row.text "Incoming call answered by" ||
        jsIncludes row.text "Incoming call"
      if !isMissedCall && !isAnsweredCall then
        ({ s with processedIndexes := setAdd s.processedIndexes dataIndex }, cnt)
      else
        match row.timestampText with
        | none => (s, cnt)
        | some tsText =>
          match row.contactText with
          | none => (s, cnt)
          | some contactText =>
            let contact0 := jsTrim contactText
            let cinfo := separateContactInfo contact0 (some row)
            let contact := cinfo.displayNumber
            let ts? :=
              match parseDateTime tsText lowerRowDates now jsDateParse with
              | some t => some t
              | none => parseAnyDateTime tsText now jsDateParse
            match ts? with
            | none =>
              ({ s with processedIndexes := setAdd s.processedIndexes dataIndex },
                cnt)
            | some ts =>
              let phoneNumber := extractPhoneNumber contact
              let s := updateRecentCalls s phoneNumber ts.getTime isMissedCall
                isAnsweredCall now.getTime
              let s :=
                if isMissedCall then
                  { s with allRecords := s.allRecords ++
                      [CallRecord.make ts.getTime contact dataIndex] }
                else s
              ({ s with processedIndexes := setAdd s.processedIndexes dataIndex },
                if isMissedCall then cnt + 1 else cnt)

/-- The sibling-date list `collectRecords` pre-computes: every row timestamp
that `parseDateTime` can already resolve (first pass, no sibling dates). -/
def lowerDatesOf (rows : List ObservedRow) (now : JSDate)
    (jsDateParse : String → Option JSDate) : List JSDate :=
  rows.filterMap (fun r =>
    r.timestampText.bind (fun t => parseDateTime t [] now jsDateParse))

/-- Result of a `collectRecords` pass. -/
structure CollectOutcome where
  state : CollectorState
  newRecordsCount : Nat
  missingIndexes : List Int
deriving DecidableEq, Repr

/-- `collectRecords()`: record the row count, scan for missing indexes,
pre-parse every row timestamp into the sibling-date list, then run the main
row loop. -/
def collectRecords (s : CollectorState) (rows : List ObservedRow)
    (now : JSDate) (jsDateParse : String → Option JSDate) : CollectOutcome :=
  let s := { s with lastKnownRowCount := rows.length }
  let currentIndexes := rows.filterMap (fun r => r.dataIndex.map parseIntJS)
  let missing := missingIndexScan currentIndexes s.processedIndexes
  let lowerRowDates := lowerDatesOf rows now jsDateParse
  let out := rows.foldl (collectStep now jsDateParse lowerRowDates) (s, 0)
  ⟨out.1, out.2, missing⟩

/-! ## Mode control and persistence -/

/-- `stopRealTimeMode(skipDownload)`: nothing when already stopped; otherwise
drop the flag, disconnect the observers and timers (external), clear the
pending-request set, and — unless `skipDownload` — clear the persisted state
(which resets records, indexes, counters, the sent-record index and, again,
the pending requests, but deliberately not the processed answers). -/
def stopRealTimeMode (s : CollectorState) (skipDownload : Bool) :
    CollectorState :=
  if !s.isRealTimeMode then s
  else
    let s := { s with isRealTimeMode := false, pendingRequests := [] }
    if skipDownload then s
    else
      { s with
        allRecords := [], processedIndexes := [],
        realTimeMissedCount := 0, monitorStartTime := none,
        sentRecords := [], pendingRequests := [] }

/-- `startRealTimeMode()`: stop a running session first, then raise the flag
and reset records, indexes, the window, the sent-record index, the processed
answers, the counter and the monitor start time (`new Date()` = `nowMs`). -/
def startRealTimeMode (s : CollectorState) (nowMs : Int) : CollectorState :=
  let s := if s.isRealTimeMode then stopRealTimeMode s true else s
  { s with
    isRealTimeMode := true, isCollecting := false,
    realTimeMissedCount := 0, monitorStartTime := some nowMs,
    allRecords := [], processedIndexes := [], recentCalls := [],
    sentRecords := [], processedAnswers := [] }

/-- One record of the persisted snapshot. -/
structure PersistedRecord where
  timestamp : Int
  contact : String
  dataIndex : String
  calledBack : Bool
  isAnswered : Bool
deriving DecidableEq, Repr

/-- The JSON object `saveToLocalStorage` writes. -/
structure PersistedData where
  records : List PersistedRecord
  processedIndexes : List String
  realTimeMissedCount : Nat
  monitorStartTime : Option Int
  sentRecords : List (String × SentInfo)
  processedAnswers : List String
deriving DecidableEq, Repr

/-- `saveToLocalStorage()`: the bounded snapshot — last 100 records, last 300
processed indexes, last 50 sent-record entries, last 50 processed answers. -/
def saveToLocalStorage (s : CollectorState) : PersistedData :=
  { records := (jsSliceLast 100 s.allRecords).map (fun r =>
      ⟨r.timestamp, r.contact, r.dataIndex, r.calledBack, r.isAnswered⟩),
    processedIndexes := jsSliceLast 300 s.processedIndexes,
    realTimeMissedCount := s.realTimeMissedCount,
    monitorStartTime := s.monitorStartTime,
    sentRecords := jsSliceLast 50 s.sentRecords,
    processedAnswers := jsSliceLast 50 s.processedAnswers }


/-! ## Concrete fixtures for the instantiated statements -/

/-- A fresh engine state right after real-time monitoring started at epoch
time 0. -/
def baseState : CollectorState :=
  { isRealTimeMode := true, isCollecting := false, allRecords := [],
    processedIndexes := [], maxProcessedIndex := some (-1),
    lastKnownRowCount := 0, realTimeMissedCount := 0,
    monitorStartTime := some 0, recentCalls := [], sentRecords := [],
    processedAnswers := [], pendingRequests := [] }

/-- A bulk-collection state (monitoring off). -/
def bulkState : CollectorState :=
  { baseState with
    isRealTimeMode := false, isCollecting := true,
    monitorStartTime := none }

/-- A concrete request-id generator. -/
def reqIds : Nat → String := fun i => "u" ++ toString i

/-- A concrete missed-call record (epoch time 7200000 = day 0, 2:00 AM). -/
def missedRec : CallRecord := CallRecord.make 7200000 "(555)123-4567" "7"

/-- A state in which `missedRec` is durable and already delivered as missed
(its record key has a sent-record entry). -/
def sentState : CollectorState :=
  { baseState with
    allRecords := [missedRec],
    sentRecords := [(recordKey "5551234567" 7200000,
      ⟨7200000, "(555)123-4567", "Yes"⟩)] }

/-- A running state with two requests in flight. -/
def pendState : CollectorState :=
  { baseState with pendingRequests := ["a", "b"] }

/-- A monitoring state whose monitor start time is day 20000 at 15:00. -/
def lateStart : CollectorState :=
  { baseState with monitorStartTime := some ((JSDate.mk 20000 900).getTime) }

/-- A concrete observed missed-call row (2:15 PM). -/
def rowMissed : ObservedRow :=
  { dataIndex := some "7", text := "Missed call (555)123-4567 2:15 PM",
    timestampText := some "2:15 PM", contactText := some "(555)123-4567",
    callerInfoText := none }

/-- A concrete observed answered-call row (2:40 PM). -/
def rowAns : ObservedRow :=
  { dataIndex := some "9",
    text := "Incoming call answered by X (555)123-4567 2:40 PM",
    timestampText := some "2:40 PM", contactText := some "(555)123-4567",
    callerInfoText := none }

/-- A row with an unparseable timestamp text. -/
def rowBad : ObservedRow :=
  { dataIndex := some "5", text := "Missed call",
    timestampText := some "???", contactText := some "(555)123-4567",
    callerInfoText := none }

/-- Two distinct bulk rows carrying the same contact and timestamp text. -/
def rowDup0 : ObservedRow :=
  { dataIndex := some "0", text := "Missed call",
    timestampText := some "2:15 PM", contactText := some "(555)123-4567",
    callerInfoText := none }

/-- Second copy of the duplicate bulk row, at a different source index. -/
def rowDup1 : ObservedRow :=
  { dataIndex := some "1", text := "Missed call",
    timestampText := some "2:15 PM", contactText := some "(555)123-4567",
    callerInfoText := none }

/-- A state whose processed-answer set already holds the answer key of phone
5551234567 at minute 7260000. -/
def processedState : CollectorState :=
  { baseState with processedAnswers := ["5551234567_7260000"] }

/-! ## Helper lemmas -/

theorem jsSliceLast_length_le {α : Type} (n : Nat) (l : List α) :
    (jsSliceLast n l).length ≤ n := by
  simp [jsSliceLast]
  omega

theorem setAdd_contains_self (l : List String) (x : String) :
    (setAdd l x).contains x = true := by
  unfold setAdd
  split
  · assumption
  · simp

theorem setDelete_nil (x : String) : setDelete [] x = [] := rfl

theorem setDelete_setAdd_fresh (l : List String) (x : String)
    (h : l.contains x = false) : setDelete (setAdd l x) x = l := by
  have hx : ∀ y ∈ l, y ≠ x := by
    intro y hy heq
    subst heq
    simp at h
    exact h hy
  unfold setAdd setDelete
  rw [h]
  simp only [Bool.false_eq_true, if_false, List.filter_append]
  rw [List.filter_eq_self.mpr (by intro a ha; simpa using hx a ha)]
  simp

theorem mapLookup_mapSet_self {α : Type} (m : List (String × α)) (k : String)
    (v : α) : mapLookup (mapSet m k v) k = some v := by
  induction m with
  | nil => simp [mapSet, mapLookup, List.find?]
  | cons e tl ih =>
    by_cases h : e.1 == k
    · simp [mapSet, mapLookup, List.find?, h]
    · simpa [mapSet, mapLookup, List.find?, h] using ih

theorem sendUpdatesLoop_state_fields (p : String) (t : Int)
    (rids : Nat → String) (l : List CallRecord) (i : Nat)
    (s : CollectorState) :
    (sendUpdatesLoop p t rids l i s).1.isRealTimeMode = s.isRealTimeMode ∧
    (sendUpdatesLoop p t rids l i s).1.allRecords = s.allRecords ∧
    (sendUpdatesLoop p t rids l i s).1.processedAnswers = s.processedAnswers ∧
    (sendUpdatesLoop p t rids l i s).1.recentCalls = s.recentCalls ∧
    (sendUpdatesLoop p t rids l i s).1.sentRecords = s.sentRecords ∧
    (sendUpdatesLoop p t rids l i s).1.monitorStartTime = s.monitorStartTime := by
  induction l generalizing i s with
  | nil => simp [sendUpdatesLoop]
  | cons r rest ih =>
    simp only [sendUpdatesLoop]
    split
    · simp
    · exact ih (i + 1) _

theorem sendUpdatesLoop_deliveries (p : String) (t : Int)
    (rids : Nat → String) (l : List CallRecord) (i : Nat)
    (s : CollectorState) (hmode : s.isRealTimeMode = true) :
    (sendUpdatesLoop p t rids l i s).2 = l.map (mkUpdateDelivery p t) := by
  induction l generalizing i s with
  | nil => simp [sendUpdatesLoop]
  | cons r rest ih =>
    simp only [sendUpdatesLoop, hmode, Bool.not_true, Bool.false_eq_true,
      if_false, List.map_cons]
    rw [ih (i + 1) _ rfl]

theorem updateMissed_deliveries (s : CollectorState) (p : String) (t : Int)
    (rids : Nat → String) (hmode : s.isRealTimeMode = true)
    (hkey : s.processedAnswers.contains (recordKey p (minuteBucket t)) = false) :
    (updateMissedCallsAfterAnswer s p t rids).deliveries =
      ((answerCandidates s p t).take 3).map (mkUpdateDelivery p t) := by
  simp only [updateMissedCallsAfterAnswer, hmode, Bool.not_true,
    Bool.false_eq_true, if_false, hkey]
  exact sendUpdatesLoop_deliveries p t rids _ 0 s hmode

theorem updateMissed_allRecords (s : CollectorState) (p : String) (t : Int)
    (rids : Nat → String) :
    (updateMissedCallsAfterAnswer s p t rids).state.allRecords =
      s.allRecords := by
  simp only [updateMissedCallsAfterAnswer]
  split
  · rfl
  · split
    · rfl
    · exact (sendUpdatesLoop_state_fields p t rids _ 0 s).2.1

theorem updateMissed_monitor (s : CollectorState) (p : String) (t : Int)
    (rids : Nat → String) :
    (updateMissedCallsAfterAnswer s p t rids).state.monitorStartTime =
      s.monitorStartTime := by
  simp only [updateMissedCallsAfterAnswer]
  split
  · rfl
  · split
    · rfl
    · exact (sendUpdatesLoop_state_fields p t rids _ 0 s).2.2.2.2.2

theorem sendToGoogleSheets_fields (s : CollectorState) (record : CallRecord)
    (isUpdate : Bool) (rid : String) :
    (sendToGoogleSheets s record isUpdate rid).1.allRecords = s.allRecords ∧
    (sendToGoogleSheets s record isUpdate rid).1.monitorStartTime =
      s.monitorStartTime ∧
    (sendToGoogleSheets s record isUpdate rid).1.processedIndexes =
      s.processedIndexes := by
  unfold sendToGoogleSheets
  split
  · exact ⟨rfl, rfl, rfl⟩
  · exact ⟨rfl, rfl, rfl⟩

theorem collectStep_marked (now : JSDate) (fb : String → Option JSDate)
    (lower : List JSDate) (s : CollectorState) (cnt : Nat)
    (row : ObservedRow) (di : String) (hdi : row.dataIndex = some di)
    (hmark : s.processedIndexes.contains di = true) :
    collectStep now fb lower (s, cnt) row =
      ({ s with maxProcessedIndex := jsMaxNaN s.maxProcessedIndex (parseIntJS di) },
        cnt) := by
  unfold collectStep
  rw [hdi]
  dsimp only
  simp only [hmark, if_true]

theorem collectStep_new_missed (now : JSDate) (fb : String → Option JSDate)
    (lower : List JSDate) (s : CollectorState) (cnt : Nat)
    (row : ObservedRow) (di tsText ctext : String) (ts : JSDate)
    (hdi : row.dataIndex = some di)
    (hts : row.timestampText = some tsText)
    (hct : row.contactText = some ctext)
    (hfresh : s.processedIndexes.contains di = false)
    (hmissed : jsIncludes row.text "Missed call" = true)
    (hparse : (match parseDateTime tsText lower now fb with
      | some t => some t
      | none => parseAnyDateTime tsText now fb) = some ts) :
    (collectStep now fb lower (s, cnt) row).1.allRecords =
      s.allRecords ++ [CallRecord.make ts.getTime
        ((separateContactInfo (jsTrim ctext) (some row)).displayNumber) di] ∧
    (collectStep now fb lower (s, cnt) row).1.processedIndexes =
      setAdd s.processedIndexes di ∧
    (collectStep now fb lower (s, cnt) row).2 = cnt + 1 := by
  unfold collectStep
  rw [hdi]
  dsimp only
  simp only [hfresh, Bool.false_eq_true, if_false, hmissed, Bool.not_true,
    Bool.false_and, Bool.and_false, hts, hct]
  rw [hparse]
  dsimp only [updateRecentCalls]
  simp [hmissed]

theorem checkForNewCalls_monitor (s : CollectorState) (row : ObservedRow)
    (now : JSDate) (fb : String → Option JSDate) (rids : Nat → String) :
    (checkForNewCalls s (some row) now fb rids).state.monitorStartTime =
      s.monitorStartTime := by
  unfold checkForNewCalls
  dsimp only
  cases hdi : row.dataIndex with
  | none => rfl
  | some di =>
    dsimp only
    cases hts : row.timestampText with
    | none => cases hct : row.contactText <;> rfl
    | some tsText =>
      cases hct : row.contactText with
      | none => rfl
      | some ctext =>
        dsimp only
        cases hparse : parseDateTime tsText [] now fb with
        | none => rfl
        | some ts =>
          dsimp only
          split
          · rfl
          · split
            · rw [updateMissed_monitor]
              rfl
            · split
              · split
                · rfl
                · exact (sendToGoogleSheets_fields _ _ _ _).2.1
              · rfl

theorem checkForNewCalls_answered_records (s : CollectorState)
    (row : ObservedRow) (now : JSDate) (fb : String → Option JSDate)
    (rids : Nat → String)
    (hans : (jsIncludes row.text "Incoming call answered by" ||
      jsIncludes row.text "Incoming call") = true) :
    (checkForNewCalls s (some row) now fb rids).state.allRecords =
      s.allRecords := by
  unfold checkForNewCalls
  dsimp only
  cases hdi : row.dataIndex with
  | none => rfl
  | some di =>
    dsimp only
    cases hts : row.timestampText with
    | none => cases hct : row.contactText <;> rfl
    | some tsText =>
      cases hct : row.contactText with
      | none => rfl
      | some ctext =>
        dsimp only
        cases hparse : parseDateTime tsText [] now fb with
        | none => rfl
        | some ts =>
          dsimp only
          split
          · rfl
          · rw [hans]
            dsimp only
            rw [updateMissed_allRecords]
            rfl

theorem checkForNewCalls_missed_char (s : CollectorState) (row : ObservedRow)
    (now : JSDate) (fb : String → Option JSDate) (rids : Nat → String)
    (di tsText ctext : String) (ts : JSDate)
    (hdi : row.dataIndex = some di)
    (hts : row.timestampText = some tsText)
    (hct : row.contactText = some ctext)
    (hparse : parseDateTime tsText [] now fb = some ts)
    (hmon : (match s.monitorStartTime with
      | some m => decide (ts.getTime ≤ m)
      | none => false) = false)
    (hmiss : jsIncludes row.text "Missed call" = true)
    (hans : (jsIncludes row.text "Incoming call answered by" ||
      jsIncludes row.text "Incoming call") = false) :
    (s.allRecords.any (fun r =>
        r.contact == (separateContactInfo (jsTrim ctext) (some row)).displayNumber &&
        r.timestamp == ts.getTime) = true →
      (checkForNewCalls s (some row) now fb rids).state.allRecords =
        s.allRecords) ∧
    (s.allRecords.any (fun r =>
        r.contact == (separateContactInfo (jsTrim ctext) (some row)).displayNumber &&
        r.timestamp == ts.getTime) = false →
      (checkForNewCalls s (some row) now fb rids).state.allRecords =
        s.allRecords ++ [CallRecord.make ts.getTime
          ((separateContactInfo (jsTrim ctext) (some row)).displayNumber) di]) := by
  simp only [checkForNewCalls, hdi, hts, hct, hparse, hmon, hmiss, hans,
    Bool.false_eq_true, if_false, if_true]
  constructor
  · intro hex
    simp only [updateRecentCalls, hex, if_true]
  · intro hex
    simp only [updateRecentCalls, hex, Bool.false_eq_true, if_false]
    rw [(sendToGoogleSheets_fields _ _ _ _).1]

theorem checkForNewCalls_missed_twice (s : CollectorState) (row : ObservedRow)
    (now : JSDate) (fb : String → Option JSDate) (rids : Nat → String)
    (di tsText ctext : String) (ts : JSDate)
    (hdi : row.dataIndex = some di)
    (hts : row.timestampText = some tsText)
    (hct : row.contactText = some ctext)
    (hparse : parseDateTime tsText [] now fb = some ts)
    (hmon : (match s.monitorStartTime with
      | some m => decide (ts.getTime ≤ m)
      | none => false) = false)
    (hmiss : jsIncludes row.text "Missed call" = true)
    (hans : (jsIncludes row.text "Incoming call answered by" ||
      jsIncludes row.text "Incoming call") = false) :
    (checkForNewCalls (checkForNewCalls s (some row) now fb rids).state
      (some row) now fb rids).state.allRecords =
      (checkForNewCalls s (some row) now fb rids).state.allRecords := by
  have hmon1 : (match (checkForNewCalls s (some row) now fb rids).state.monitorStartTime with
      | some m => decide (ts.getTime ≤ m)
      | none => false) = false := by
    rw [checkForNewCalls_monitor]
    exact hmon
  rcases Bool.eq_false_or_eq_true (s.allRecords.any (fun r =>
      r.contact == (separateContactInfo (jsTrim ctext) (some row)).displayNumber &&
      r.timestamp == ts.getTime)) with hex | hex
  · have h1 := (checkForNewCalls_missed_char s row now fb rids di tsText ctext
      ts hdi hts hct hparse hmon hmiss hans).1 hex
    have hex1 : ((checkForNewCalls s (some row) now fb rids).state.allRecords.any
        (fun r =>
          r.contact == (separateContactInfo (jsTrim ctext) (some row)).displayNumber &&
          r.timestamp == ts.getTime)) = true := by
      rw [h1]
      exact hex
    exact (checkForNewCalls_missed_char _ row now fb rids di tsText ctext ts
      hdi hts hct hparse hmon1 hmiss hans).1 hex1
  · have h1 := (checkForNewCalls_missed_char s row now fb rids di tsText ctext
      ts hdi hts hct hparse hmon hmiss hans).2 hex
    have hex1 : ((checkForNewCalls s (some row) now fb rids).state.allRecords.any
        (fun r =>
          r.contact == (separateContactInfo (jsTrim ctext) (some row)).displayNumber &&
          r.timestamp == ts.getTime)) = true := by
      rw [h1, List.any_append]
      simp [CallRecord.make]
    exact (checkForNewCalls_missed_char _ row now fb rids di tsText ctext ts
      hdi hts hct hparse hmon1 hmiss hans).1 hex1

theorem collectRecords_same_row_twice (s : CollectorState) (row : ObservedRow)
    (now : JSDate) (fb : String → Option JSDate)
    (di tsText ctext : String) (ts : JSDate)
    (hdi : row.dataIndex = some di)
    (hts : row.timestampText = some tsText)
    (hct : row.contactText = some ctext)
    (hfresh : s.processedIndexes.contains di = false)
    (hmiss : jsIncludes row.text "Missed call" = true)
    (hparse : (match parseDateTime tsText (lowerDatesOf [row, row] now fb) now fb with
      | some t => some t
      | none => parseAnyDateTime tsText now fb) = some ts) :
    (collectRecords s [row, row] now fb).state.allRecords =
      s.allRecords ++ [CallRecord.make ts.getTime
        ((separateContactInfo (jsTrim ctext) (some row)).displayNumber) di] := by
  have hfold : (collectRecords s [row, row] now fb).state =
      (collectStep now fb (lowerDatesOf [row, row] now fb)
        (collectStep now fb (lowerDatesOf [row, row] now fb)
          ({ s with lastKnownRowCount := 2 }, 0) row) row).1 := rfl
  rw [hfold]
  rcases hstep : collectStep now fb (lowerDatesOf [row, row] now fb)
      ({ s with lastKnownRowCount := 2 }, 0) row with ⟨s1, c1⟩
  have h1 := collectStep_new_missed now fb (lowerDatesOf [row, row] now fb)
    { s with lastKnownRowCount := 2 } 0 row di tsText ctext ts hdi hts hct
    hfresh hmiss hparse
  rw [hstep] at h1
  rw [collectStep_marked now fb (lowerDatesOf [row, row] now fb) s1 c1 row di
    hdi (by rw [h1.2.1]; exact setAdd_contains_self _ _)]
  exact h1.1

/-! ## Claim theorems -/

set_option maxRecDepth 4000 in
/-- C9: every persistence write bounds the stored state — the snapshot holds
at most the last 100 records, 300 dedup index entries, 50 sent-record
entries, and 50 processed-answer entries, from every engine state. -/
theorem persisted_snapshot_bounded (s : CollectorState) :
    (saveToLocalStorage s).records.length ≤ 100 ∧
    (saveToLocalStorage s).processedIndexes.length ≤ 300 ∧
    (saveToLocalStorage s).sentRecords.length ≤ 50 ∧
    (saveToLocalStorage s).processedAnswers.length ≤ 50 := by
  refine ⟨?_, jsSliceLast_length_le _ _, jsSliceLast_length_le _ _,
    jsSliceLast_length_le _ _⟩
  simpa [saveToLocalStorage] using jsSliceLast_length_le 100 s.allRecords

/-- C3: an Answered event is idempotent per minute bucket — when the
`(phone, minuteBucket)` answer key is already in the processed-answer set the
reconciliation is a no-op with zero deliveries, and after any reconciliation
pass (monitoring on) the key is in the set regardless of whether a candidate
was found. -/
theorem answer_reconciliation_idempotent (s : CollectorState) (p : String)
    (t : Int) (rids : Nat → String) :
    (s.processedAnswers.contains (recordKey p (minuteBucket t)) = true →
      updateMissedCallsAfterAnswer s p t rids = ⟨s, [], 0⟩) ∧
    (s.isRealTimeMode = true →
      (updateMissedCallsAfterAnswer s p t rids).state.processedAnswers.contains
        (recordKey p (minuteBucket t)) = true) := by
  constructor
  · intro h
    unfold updateMissedCallsAfterAnswer
    split
    · rfl
    · simp only [h, eq_self_iff_true, if_true]
  · intro hm
    simp only [updateMissedCallsAfterAnswer, hm, Bool.not_true,
      Bool.false_eq_true, if_false]
    split
    · assumption
    · exact setAdd_contains_self _ _

/-- Witness for C3 at a concrete state, phone key and minute. -/
theorem answer_reconciliation_idempotent_witness :
    updateMissedCallsAfterAnswer processedState "5551234567" 7260000 reqIds =
      ⟨processedState, [], 0⟩ ∧
    (updateMissedCallsAfterAnswer baseState "5551234567" 7260000
      reqIds).state.processedAnswers.contains
        (recordKey "5551234567" (minuteBucket 7260000)) = true :=
  ⟨(answer_reconciliation_idempotent processedState "5551234567" 7260000
      reqIds).1 (by decide),
   (answer_reconciliation_idempotent baseState "5551234567" 7260000
      reqIds).2 (by decide)⟩

/-- C7: stopping monitoring clears the pending-request set and drops the
flag, and every late completion callback (`onload`, `onerror`, `ontimeout`)
arriving after the stop leaves the engine state untouched. -/
theorem stale_completion_discarded (s : CollectorState) (skipDownload : Bool)
    (rid : String) (status : Nat) (hmode : s.isRealTimeMode = true) :
    (stopRealTimeMode s skipDownload).pendingRequests = [] ∧
    (stopRealTimeMode s skipDownload).isRealTimeMode = false ∧
    requestOnload (stopRealTimeMode s skipDownload) rid status =
      stopRealTimeMode s skipDownload ∧
    requestOnerror (stopRealTimeMode s skipDownload) rid =
      stopRealTimeMode s skipDownload ∧
    requestOntimeout (stopRealTimeMode s skipDownload) rid =
      stopRealTimeMode s skipDownload := by
  have hp : (stopRealTimeMode s skipDownload).pendingRequests = [] := by
    simp only [stopRealTimeMode, hmode, Bool.not_true, Bool.false_eq_true,
      if_false]
    split <;> rfl
  have hgen : ∀ s2 : CollectorState, s2.pendingRequests = [] →
      requestOnload s2 rid status = s2 ∧ requestOnerror s2 rid = s2 ∧
      requestOntimeout s2 rid = s2 := by
    intro s2 h2
    cases s2
    simp only at h2
    subst h2
    refine ⟨?_, rfl, rfl⟩
    simp [requestOnload, setDelete]
  have hm2 : (stopRealTimeMode s skipDownload).isRealTimeMode = false := by
    simp only [stopRealTimeMode, hmode, Bool.not_true, Bool.false_eq_true,
      if_false]
    split <;> rfl
  obtain ⟨h1, h2, h3⟩ := hgen _ hp
  exact ⟨hp, hm2, h1, h2, h3⟩

/-- Witness for C7 at a concrete running state with two in-flight requests. -/
theorem stale_completion_discarded_witness :
    (stopRealTimeMode pendState true).pendingRequests = [] ∧
    (stopRealTimeMode pendState true).isRealTimeMode = false ∧
    requestOnload (stopRealTimeMode pendState true) "a" 200 =
      stopRealTimeMode pendState true ∧
    requestOnerror (stopRealTimeMode pendState true) "a" =
      stopRealTimeMode pendState true ∧
    requestOntimeout (stopRealTimeMode pendState true) "a" =
      stopRealTimeMode pendState true :=
  stale_completion_discarded pendState true "a" 200 (by decide)

/-- C10: in real-time mode, an observed row whose parsed timestamp is at or
before the monitor start time is ignored entirely — no state change, no
delivery, zero counters. -/
theorem pre_monitor_rows_ignored (s : CollectorState) (row : ObservedRow)
    (now : JSDate) (fb : String → Option JSDate) (rids : Nat → String)
    (di tsText ctext : String) (ts : JSDate) (m : Int)
    (hdi : row.dataIndex = some di)
    (hts : row.timestampText = some tsText)
    (hct : row.contactText = some ctext)
    (hparse : parseDateTime tsText [] now fb = some ts)
    (hm : s.monitorStartTime = some m)
    (hold : ts.getTime ≤ m) :
    checkForNewCalls s (some row) now fb rids = ⟨s, [], 0, 0⟩ := by
  simp [checkForNewCalls, hdi, hts, hct, hparse, hm, hold]

/-- Witness for C10: a 2:15 PM row against a monitor started at 3:00 PM the
same day. -/
theorem pre_monitor_rows_ignored_witness :
    checkForNewCalls lateStart (some rowMissed) ⟨20000, 900⟩
        (fun _ => none) reqIds = ⟨lateStart, [], 0, 0⟩ :=
  pre_monitor_rows_ignored lateStart rowMissed ⟨20000, 900⟩ (fun _ => none)
    reqIds "7" "2:15 PM" "(555)123-4567" ⟨20000, 855⟩
    ((JSDate.mk 20000 900).getTime) rfl rfl rfl (by decide) rfl (by decide)

/-- C6: the reconciliation matching window is asymmetric and capped — the
update deliveries are exactly the qualifying candidates (phone match, sent,
strictly inside the hour before the answer) capped at three, their number is
`min(candidates, 3)`, and every delivered update is keyed strictly before the
answer time and strictly within one hour of it. -/
theorem answer_window_asymmetric_capped (s : CollectorState) (p : String)
    (t : Int) (rids : Nat → String) (hmode : s.isRealTimeMode = true)
    (hkey : s.processedAnswers.contains (recordKey p (minuteBucket t)) = false) :
    (updateMissedCallsAfterAnswer s p t rids).deliveries =
      ((answerCandidates s p t).take 3).map (mkUpdateDelivery p t) ∧
    (updateMissedCallsAfterAnswer s p t rids).deliveries.length =
      min (answerCandidates s p t).length 3 ∧
    ∀ d ∈ (updateMissedCallsAfterAnswer s p t rids).deliveries,
      t - 3600000 < d.dateTime ∧ d.dateTime < t := by
  have hdel := updateMissed_deliveries s p t rids hmode hkey
  refine ⟨hdel, ?_, ?_⟩
  · rw [hdel, List.length_map, List.length_take]
    exact Nat.min_comm _ _
  · intro d hd
    rw [hdel] at hd
    obtain ⟨r, hr, hdr⟩ := List.mem_map.mp hd
    have hrc := List.mem_of_mem_take hr
    simp only [answerCandidates] at hrc
    have hcond := (List.mem_filter.mp hrc).2
    simp only [Bool.and_eq_true, decide_eq_true_eq] at hcond
    subst hdr
    simp only [mkUpdateDelivery]
    exact ⟨hcond.1.1.2, hcond.1.2⟩

/-- Witness for C6 at a concrete state with one qualifying candidate. -/
theorem answer_window_asymmetric_capped_witness :
    (updateMissedCallsAfterAnswer sentState "5551234567" 7260000
        reqIds).deliveries =
      ((answerCandidates sentState "5551234567" 7260000).take 3).map
        (mkUpdateDelivery "5551234567" 7260000) ∧
    (updateMissedCallsAfterAnswer sentState "5551234567" 7260000
        reqIds).deliveries.length =
      min (answerCandidates sentState "5551234567" 7260000).length 3 :=
  ⟨(answer_window_asymmetric_capped sentState "5551234567" 7260000 reqIds
      (by decide) (by decide)).1,
   (answer_window_asymmetric_capped sentState "5551234567" 7260000 reqIds
      (by decide) (by decide)).2.1⟩

/-- C1 counterexample: an answer arriving exactly one hour after a delivered
missed call (`T2 − T1 = 1h`, so `T2 − T1 ≤ 1h` as the claim requires)
produces no update at all — the code's window is strict. -/
theorem answer_exactly_one_hour_no_update :
    (10800000 : Int) - 7200000 ≤ 3600000 ∧
    missedRec.timestamp = 7200000 ∧
    (mapLookup sentState.sentRecords
      (recordKey "5551234567" 7200000)).isSome = true ∧
    sentState.isRealTimeMode = true ∧
    (updateMissedCallsAfterAnswer sentState "5551234567" 10800000
      reqIds).deliveries = [] ∧
    (updateMissedCallsAfterAnswer sentState "5551234567" 10800000
      reqIds).updatedCount = 0 := by
  decide

/-- C1 (amended): with a single delivered missed-call record for phone `P` at
`T1`, an answer at `T2` with `T1 < T2` and `T2 − T1` strictly under one hour
produces exactly one update keyed on the original missed timestamp (status
"No", `isUpdate` set); with `T2 − T1 ≥ 1h` it produces no update. -/
theorem missed_then_answered_within_hour_single_update (s : CollectorState)
    (r : CallRecord) (p : String) (t1 t2 : Int) (rids : Nat → String)
    (hmode : s.isRealTimeMode = true)
    (hkey : s.processedAnswers.contains (recordKey p (minuteBucket t2)) = false)
    (hrec : s.allRecords = [r])
    (hphone : extractPhoneNumber r.contact = p)
    (hts : r.timestamp = t1)
    (hsent : (mapLookup s.sentRecords (recordKey p t1)).isSome = true) :
    (t1 < t2 → t2 - t1 < 3600000 →
      (updateMissedCallsAfterAnswer s p t2 rids).deliveries =
        [mkUpdateDelivery p t2 r] ∧
      (mkUpdateDelivery p t2 r).dateTime = t1 ∧
      (mkUpdateDelivery p t2 r).isUpdate = true ∧
      (mkUpdateDelivery p t2 r).actualMissedCall = "No") ∧
    (3600000 ≤ t2 - t1 →
      (updateMissedCallsAfterAnswer s p t2 rids).deliveries = []) := by
  have hdel := updateMissed_deliveries s p t2 rids hmode hkey
  constructor
  · intro hlt hwin
    have h1 : r.timestamp > t2 - 3600000 := by omega
    have h2 : r.timestamp < t2 := by omega
    have hcand : answerCandidates s p t2 = [r] := by
      simp only [answerCandidates, hrec, List.filter_cons, List.filter_nil]
      simp [hphone, hts, h1, h2, hsent]
      omega
    rw [hcand] at hdel
    refine ⟨by simpa using hdel, ?_, rfl, rfl⟩
    show r.timestamp = t1
    exact hts
  · intro hge
    have h1 : ¬(r.timestamp > t2 - 3600000) := by omega
    have hcand : answerCandidates s p t2 = [] := by
      simp only [answerCandidates, hrec, List.filter_cons, List.filter_nil]
      simp [h1]
    rw [hcand] at hdel
    simpa using hdel

/-- Witness for the amended C1: an answer ten minutes after the missed call
produces exactly the one update keyed on the missed timestamp. -/
theorem missed_then_answered_within_hour_single_update_witness :
    (updateMissedCallsAfterAnswer sentState "5551234567" 7800000
      reqIds).deliveries = [mkUpdateDelivery "5551234567" 7800000 missedRec] ∧
    (mkUpdateDelivery "5551234567" 7800000 missedRec).dateTime = 7200000 := by
  have h := missed_then_answered_within_hour_single_update sentState missedRec
    "5551234567" 7200000 7800000 reqIds (by decide) (by decide) (by decide)
    (by decide) (by decide) (by decide)
  exact ⟨(h.1 (by decide) (by decide)).1, (h.1 (by decide) (by decide)).2.1⟩

/-- C2 counterexample: a create delivery that fails with a network error does
NOT leave the sent status unset — the record key is entered into the
sent-record index at send time and survives the `onerror` callback. -/
theorem failed_create_still_marked_sent :
    baseState.sentRecords = [] ∧
    mapLookup (requestOnerror (sendToGoogleSheets baseState missedRec false
      "r1").1 "r1").sentRecords (recordKey "5551234567" 7200000) ≠ none := by
  decide

/-- C2 (amended): a failed create marks the ledger's sent status at send
time (before the outcome is known) and the failure itself changes nothing
else — the error callback only removes the request id, so the net effect of
a failed create is exactly the sent-record entry; the record itself and all
other structures are untouched, and a timeout behaves like an error. -/
theorem create_failure_state_effect (s : CollectorState) (r : CallRecord)
    (rid : String) (hmode : s.isRealTimeMode = true)
    (hfresh : s.pendingRequests.contains rid = false) :
    requestOnerror (sendToGoogleSheets s r false rid).1 rid =
      { s with sentRecords := (mapSet s.sentRecords
          (recordKey (extractPhoneNumber r.contact) r.timestamp)
          ⟨r.timestamp, (separateContactInfo r.contact none).displayNumber,
            isActualMissedCall s (extractPhoneNumber r.contact) r.timestamp⟩) } ∧
    mapLookup (requestOnerror (sendToGoogleSheets s r false rid).1
        rid).sentRecords
      (recordKey (extractPhoneNumber r.contact) r.timestamp) =
      some ⟨r.timestamp, (separateContactInfo r.contact none).displayNumber,
        isActualMissedCall s (extractPhoneNumber r.contact) r.timestamp⟩ ∧
    (requestOnerror (sendToGoogleSheets s r false rid).1 rid).allRecords =
      s.allRecords ∧
    requestOntimeout (sendToGoogleSheets s r false rid).1 rid =
      requestOnerror (sendToGoogleSheets s r false rid).1 rid := by
  have h1 : requestOnerror (sendToGoogleSheets s r false rid).1 rid =
      { s with sentRecords := (mapSet s.sentRecords
          (recordKey (extractPhoneNumber r.contact) r.timestamp)
          ⟨r.timestamp, (separateContactInfo r.contact none).displayNumber,
            isActualMissedCall s (extractPhoneNumber r.contact) r.timestamp⟩) } := by
    simp only [sendToGoogleSheets, hmode, Bool.not_true, Bool.false_eq_true,
      if_false, requestOnerror]
    rw [setDelete_setAdd_fresh _ _ hfresh]
  refine ⟨h1, ?_, ?_, rfl⟩
  · rw [h1]
    exact mapLookup_mapSet_self _ _ _
  · rw [h1]

/-- Witness for the amended C2 at a concrete state and record. -/
theorem create_failure_state_effect_witness :
    requestOnerror (sendToGoogleSheets baseState missedRec false "r1").1 "r1" =
      { baseState with sentRecords := (mapSet baseState.sentRecords
          (recordKey (extractPhoneNumber missedRec.contact) missedRec.timestamp)
          ⟨missedRec.timestamp,
            (separateContactInfo missedRec.contact none).displayNumber,
            isActualMissedCall baseState (extractPhoneNumber missedRec.contact)
              missedRec.timestamp⟩) } ∧
    (requestOnerror (sendToGoogleSheets baseState missedRec false "r1").1
      "r1").allRecords = baseState.allRecords :=
  ⟨(create_failure_state_effect baseState missedRec "r1" (by decide)
      (by decide)).1,
   (create_failure_state_effect baseState missedRec "r1" (by decide)
      (by decide)).2.2.1⟩

/-- C8 counterexample: in the bulk path an unparseable row leaves the dedup
ledger CHANGED — its source index is marked processed (though no record is
created). -/
theorem bulk_unparseable_marks_index :
    bulkState.processedIndexes = [] ∧
    (collectRecords bulkState [rowBad] ⟨20000, 900⟩
      (fun _ => none)).state.processedIndexes = ["5"] ∧
    (collectRecords bulkState [rowBad] ⟨20000, 900⟩
      (fun _ => none)).state.allRecords = [] := by
  decide

/-- C8 (amended): a row whose timestamp no strategy can resolve produces no
event — the real-time path leaves the state entirely unchanged with no
delivery; the bulk path creates no record, touches no window or ledger
structure except that it updates the max-index tracker and marks the row's
source index processed. -/
theorem unparseable_row_no_event :
    (∀ (s : CollectorState) (row : ObservedRow) (now : JSDate)
        (fb : String → Option JSDate) (rids : Nat → String)
        (di tsText ctext : String),
      row.dataIndex = some di → row.timestampText = some tsText →
      row.contactText = some ctext →
      parseDateTime tsText [] now fb = none →
      checkForNewCalls s (some row) now fb rids = ⟨s, [], 0, 0⟩) ∧
    (∀ (s : CollectorState) (cnt : Nat) (row : ObservedRow) (now : JSDate)
        (fb : String → Option JSDate) (lower : List JSDate)
        (di tsText ctext : String),
      row.dataIndex = some di → row.timestampText = some tsText →
      row.contactText = some ctext →
      s.processedIndexes.contains di = false →
      jsIncludes row.text "Missed call" = true →
      parseDateTime tsText lower now fb = none →
      parseAnyDateTime tsText now fb = none →
      collectStep now fb lower (s, cnt) row =
        ({ s with
            maxProcessedIndex := jsMaxNaN s.maxProcessedIndex (parseIntJS di),
            processedIndexes := setAdd s.processedIndexes di }, cnt)) := by
  constructor
  · intro s row now fb rids di tsText ctext hdi hts hct hparse
    simp [checkForNewCalls, hdi, hts, hct, hparse]
  · intro s cnt row now fb lower di tsText ctext hdi hts hct hfresh hmiss
      hp1 hp2
    unfold collectStep
    rw [hdi]
    dsimp only
    simp only [hfresh, Bool.false_eq_true, if_false, hmiss, Bool.not_true,
      Bool.false_and, hts, hct]
    rw [hp1]
    dsimp only
    rw [hp2]

/-- Witness for the amended C8: the `???` timestamp row in both paths. -/
theorem unparseable_row_no_event_witness :
    checkForNewCalls baseState (some rowBad) ⟨20000, 900⟩ (fun _ => none)
      reqIds = ⟨baseState, [], 0, 0⟩ ∧
    collectStep ⟨20000, 900⟩ (fun _ => none) [] (bulkState, 0) rowBad =
      ({ bulkState with
          maxProcessedIndex := (jsMaxNaN bulkState.maxProcessedIndex
            (parseIntJS "5")),
          processedIndexes := setAdd bulkState.processedIndexes "5" }, 0) :=
  ⟨unparseable_row_no_event.1 baseState rowBad ⟨20000, 900⟩ (fun _ => none)
      reqIds "5" "???" "(555)123-4567" rfl rfl rfl (by decide),
   unparseable_row_no_event.2 bulkState 0 rowBad ⟨20000, 900⟩ (fun _ => none)
      [] "5" "???" "(555)123-4567" rfl rfl rfl (by decide) (by decide)
      (by decide) (by decide)⟩

/-- C4 counterexample: two bulk rows at different source indexes with the
same contact and timestamp text yield two CallRecords with an identical
`(contact, timestamp)` pair — the bulk path dedups only by source index. -/
theorem bulk_path_duplicate_records :
    (collectRecords bulkState [rowDup0, rowDup1] ⟨20000, 900⟩
        (fun _ => none)).state.allRecords.map
      (fun r => (r.contact, r.timestamp)) =
      [("(555)123-4567", 1728051300000), ("(555)123-4567", 1728051300000)] := by
  decide

/-- C4 (amended): processing the identical row twice yields exactly one
CallRecord in both paths — an answered row never creates a record, a missed
row re-observed by the real-time path is deduplicated by its
`(contact, timestamp)` pair, and a bulk row re-observed at the same source
index is skipped; but only the real-time path deduplicates by
`(contact, timestamp)`, so distinct bulk rows may duplicate the pair. -/
theorem row_reprocessing_idempotent :
    (∀ (s : CollectorState) (row : ObservedRow) (now : JSDate)
        (fb : String → Option JSDate) (rids : Nat → String),
      (jsIncludes row.text "Incoming call answered by" ||
        jsIncludes row.text "Incoming call") = true →
      (checkForNewCalls s (some row) now fb rids).state.allRecords =
        s.allRecords) ∧
    (∀ (s : CollectorState) (row : ObservedRow) (now : JSDate)
        (fb : String → Option JSDate) (rids : Nat → String)
        (di tsText ctext : String) (ts : JSDate),
      row.dataIndex = some di → row.timestampText = some tsText →
      row.contactText = some ctext →
      parseDateTime tsText [] now fb = some ts →
      (match s.monitorStartTime with
        | some m => decide (ts.getTime ≤ m)
        | none => false) = false →
      jsIncludes row.text "Missed call" = true →
      (jsIncludes row.text "Incoming call answered by" ||
        jsIncludes row.text "Incoming call") = false →
      (checkForNewCalls (checkForNewCalls s (some row) now fb rids).state
        (some row) now fb rids).state.allRecords =
        (checkForNewCalls s (some row) now fb rids).state.allRecords) ∧
    (∀ (s : CollectorState) (row : ObservedRow) (now : JSDate)
        (fb : String → Option JSDate) (di tsText ctext : String)
        (ts : JSDate),
      row.dataIndex = some di → row.timestampText = some tsText →
      row.contactText = some ctext →
      s.processedIndexes.contains di = false →
      jsIncludes row.text "Missed call" = true →
      (match parseDateTime tsText (lowerDatesOf [row, row] now fb) now fb with
        | some t => some t
        | none => parseAnyDateTime tsText now fb) = some ts →
      (collectRecords s [row, row] now fb).state.allRecords =
        s.allRecords ++ [CallRecord.make ts.getTime
          ((separateContactInfo (jsTrim ctext) (some row)).displayNumber) di]) :=
  ⟨fun s row now fb rids hans =>
      checkForNewCalls_answered_records s row now fb rids hans,
   fun s row now fb rids di tsText ctext ts hdi hts hct hparse hmon hmiss
      hans =>
      checkForNewCalls_missed_twice s row now fb rids di tsText ctext ts hdi
        hts hct hparse hmon hmiss hans,
   fun s row now fb di tsText ctext ts hdi hts hct hfresh hmiss hparse =>
      collectRecords_same_row_twice s row now fb di tsText ctext ts hdi hts
        hct hfresh hmiss hparse⟩

/-- Witness for the amended C4: concrete answered, real-time missed and bulk
rows. -/
theorem row_reprocessing_idempotent_witness :
    (checkForNewCalls baseState (some rowAns) ⟨20000, 900⟩ (fun _ => none)
      reqIds).state.allRecords = baseState.allRecords ∧
    (checkForNewCalls (checkForNewCalls baseState (some rowMissed) ⟨20000, 900⟩
        (fun _ => none) reqIds).state (some rowMissed) ⟨20000, 900⟩
        (fun _ => none) reqIds).state.allRecords =
      (checkForNewCalls baseState (some rowMissed) ⟨20000, 900⟩ (fun _ => none)
        reqIds).state.allRecords ∧
    (collectRecords bulkState [rowDup0, rowDup0] ⟨20000, 900⟩
        (fun _ => none)).state.allRecords =
      bulkState.allRecords ++ [CallRecord.make ((JSDate.mk 20000 855).getTime)
        ((separateContactInfo (jsTrim "(555)123-4567")
          (some rowDup0)).displayNumber) "0"] :=
  ⟨row_reprocessing_idempotent.1 baseState rowAns ⟨20000, 900⟩ (fun _ => none)
      reqIds (by decide),
   row_reprocessing_idempotent.2.1 baseState rowMissed ⟨20000, 900⟩
      (fun _ => none) reqIds "7" "2:15 PM" "(555)123-4567" ⟨20000, 855⟩
      rfl rfl rfl (by decide) (by decide) (by decide) (by decide),
   row_reprocessing_idempotent.2.2 bulkState rowDup0 ⟨20000, 900⟩
      (fun _ => none) "0" "2:15 PM" "(555)123-4567" ⟨20000, 855⟩
      rfl rfl rfl (by decide) (by decide) (by decide)⟩

/-- C5: a "Yesterday H:MM [AM/PM]" timestamp (a text the yesterday pattern
matches and the time-only pattern does not, with a well-formed 12-hour
clock reading) resolves to the previous calendar day at that clock time,
unless some sibling date of the observation batch falls on today, in which
case today's date is preferred at the same clock time. -/
theorem yesterday_sibling_override (text : String) (sibs : List JSDate)
    (now : JSDate) (fb : String → Option JSDate) (h m : Nat)
    (p : Option Period)
    (hnotTime : matchTimeOnly text.toList = none)
    (hyest : yesterdaySearch text.toList = some (h, m, p))
    (hh1 : 1 ≤ h) (hh2 : h ≤ 12) (hm : m < 60) :
    parseDateTime text sibs now fb =
      some ⟨(if sibs.any (fun d => d.day == now.day) then now.day
             else now.day - 1),
            to24Hour h p * 60 + m⟩ := by
  have hb : to24Hour h p * 60 + m < 1440 := by
    have h23 : to24Hour h p ≤ 23 := by
      rcases p with _ | pp
      · simp only [to24Hour]
        omega
      · cases pp
        · by_cases hq : h = 12 <;> simp [to24Hour, hq] <;> omega
        · by_cases hq : h = 12 <;> simp [to24Hour, hq] <;> omega
    omega
  have hdiv : (to24Hour h p * 60 + m) / 1440 = 0 := Nat.div_eq_of_lt hb
  have hmod : (to24Hour h p * 60 + m) % 1440 = to24Hour h p * 60 + m :=
    Nat.mod_eq_of_lt hb
  cases hany : sibs.any (fun d => d.day == now.day) with
  | true =>
    simp only [parseDateTime, hnotTime, hyest, hany, JSDate.setClock, if_true]
    rw [hdiv, hmod]
    simp
  | false =>
    simp only [parseDateTime, hnotTime, hyest, hany, JSDate.setClock,
      Bool.false_eq_true, if_false]
    rw [hdiv, hmod]
    simp

/-- Witness for C5 — scenario D: "Yesterday 11:50 PM" observed alongside a
sibling row that resolves to today (12:05 AM) is resolved to TODAY at
11:50 PM, not yesterday. -/
theorem yesterday_sibling_override_witness :
    parseDateTime "Yesterday 11:50 PM" [⟨20000, 5⟩] ⟨20000, 30⟩
      (fun _ => none) = some ⟨20000, 23 * 60 + 50⟩ :=
  (yesterday_sibling_override "Yesterday 11:50 PM" [⟨20000, 5⟩] ⟨20000, 30⟩
    (fun _ => none) 11 50 (some Period.PM) (by decide) (by decide)
    (by decide) (by decide) (by decide)).trans (by decide)
